import Mathlib

set_option linter.unusedVariables false

/-!
Shallow embedding of the conversation/request orchestration core of the
Cortex Analyst Streamlit app (`src/App/Cortex Analyst Sample App.py`).

The Streamlit session state (`st.session_state`) is modelled as an explicit
`AppState` record; each Python handler becomes a pure state-transition
function.  A Python `KeyError` escaping a handler is modelled by a `raised`
flag in the step result, with the state fields as they were at the moment
of the raise (Streamlit session state survives an exception of one script
run).  The analyst / feedback HTTP responses are nondeterministic inputs,
modelled as explicit arguments (`ApiResp`): `status` is the HTTP status and
`parsed` is the JSON-decoded body with the fields the code reads.
-/

set_option autoImplicit false

namespace CortexApp

/-- One content block of a message, mirroring the JSON dicts the Python code
passes around: `typ` is `item["type"]`; the remaining fields model the
type-specific keys (`item["text"]`, `item["suggestions"]`,
`item["statement"]`, `item.get("confidence")`), `none` meaning "key absent"
(direct subscripting of an absent key raises `KeyError`). -/
structure ContentBlock where
  typ : String
  text : Option String := none
  suggestions : Option (List String) := none
  statement : Option String := none
  confidence : Option String := none
deriving DecidableEq, Repr

/-- A warning object from the analyst response (`warning["message"]`). -/
structure Warning where
  message : String
deriving DecidableEq, Repr

/-- One conversation turn as stored in `st.session_state.messages`:
a dict with `role`, `content`, and (for analyst turns) `request_id`. -/
structure Message where
  role : String
  content : List ContentBlock
  request_id : Option String := none
deriving DecidableEq, Repr

/-- The JSON-decoded body of an analyst / feedback API response
(`parsed_content = json.loads(resp["content"])`), with exactly the keys the
code reads; `none` models an absent key. -/
structure ParsedContent where
  message_content : Option (List ContentBlock) := none
  request_id : Option String := none
  error_code : Option String := none
  message : Option String := none
  warnings : Option (List Warning) := none
deriving DecidableEq, Repr

/-- The raw result of `_snowflake.send_snow_api_request`: HTTP `status`
plus the JSON-decoded `content` body. -/
structure ApiResp where
  status : Nat
  parsed : ParsedContent
deriving DecidableEq, Repr

/-- The per-request feedback record stored in
`st.session_state.form_submitted[request_id]`, a dict of shape
`{"error": err_msg}`. -/
structure FeedbackRecord where
  error : Option String
deriving DecidableEq, Repr

/-- The Streamlit session state fields the orchestration core touches. -/
structure AppState where
  messages : List Message
  active_suggestion : Option String
  warnings : List Warning
  form_submitted : List (String × FeedbackRecord)
  fire_API_error_notify : Bool
  selected_database : Option String
  selected_schema : Option String
  selected_semantic_view_fqn : Option String
deriving DecidableEq, Repr

/-- Python dict lookup `m[k]` on the feedback map, `none` when absent
(the code guards direct access with `request_id in form_submitted`). -/
def lookupFR : List (String × FeedbackRecord) → String → Option FeedbackRecord
  | [], _ => none
  | (k, v) :: rest, key => if k = key then some v else lookupFR rest key

/-- Python dict assignment `m[k] = v`: replaces the value when the key is
present, appends the pair otherwise. -/
def setFR : List (String × FeedbackRecord) → String → FeedbackRecord → List (String × FeedbackRecord)
  | [], key, v => [(key, v)]
  | (k, w) :: rest, key, v =>
      if k = key then (k, v) :: rest else (k, w) :: setFR rest key v

/-- Python truthiness of an optional string (`if user_input:` /
`if not st.session_state.get(...)`): `None` and `""` are falsy. -/
def pyTruthy : Option String → Bool
  | none => false
  | some s => s ≠ ""

/-- `reset_session_state()`: clears messages, active suggestion, warnings
and the feedback-submission map; all other session fields are untouched. -/
def reset_session_state (s : AppState) : AppState :=
  { s with messages := [], active_suggestion := none,
           warnings := [], form_submitted := [] }

/-- `_on_database_change()`: clears downstream selections, then resets the
session state (the `list_schemas.clear()` cache invalidation is a
memoization effect outside this state). -/
def _on_database_change (s : AppState) : AppState :=
  reset_session_state
    { s with selected_schema := none, selected_semantic_view_fqn := none }

/-- `_on_schema_change()`: clears the semantic-view selection, then resets
the session state. -/
def _on_schema_change (s : AppState) : AppState :=
  reset_session_state { s with selected_semantic_view_fqn := none }

/-- `_on_view_change()`: resets the session state. -/
def _on_view_change (s : AppState) : AppState :=
  reset_session_state s

/-- The error text built by `get_analyst_response` for a `status >= 400`
response (the f-string interpolating `resp['status']`,
`parsed_content.get('request_id', '(unknown)')` and
`parsed_content.get('error_code', '(unknown)')`). -/
def analystErrorMsg (status : Nat) (pc : ParsedContent) : String :=
  "\n🚨 Cortex Analyst API エラー 🚨\n\n* 応答コード: `" ++ toString status ++
  "`\n* リクエストID: `" ++ pc.request_id.getD "(unknown)" ++
  "`\n* エラーコード: `" ++ pc.error_code.getD "(unknown)" ++
  "`\n\nメッセージ:\n        "

/-- `get_analyst_response(messages)`: performs the POST (the response is
the explicit `resp` argument here) and returns
`(parsed_content, error_msg)`, where `error_msg` is `None` for
`status < 400` and the formatted error text otherwise. -/
def get_analyst_response (resp : ApiResp) : ParsedContent × Option String :=
  if resp.status < 400 then (resp.parsed, none)
  else (resp.parsed, some (analystErrorMsg resp.status resp.parsed))

/-- The user message appended by `process_user_input`:
`{"role": "user", "content": [{"type": "text", "text": prompt}]}`. -/
def mkUserMessage (prompt : String) : Message :=
  { role := "user", content := [{ typ := "text", text := some prompt }] }

/-- The result of one Python handler run: the session state afterwards and
whether the run raised an exception (`KeyError`) before completing. -/
structure StepResult where
  state : AppState
  raised : Bool
deriving DecidableEq, Repr

/-- `process_user_input(prompt)` with the analyst API response made
explicit.  Mirrors the source order: clear warnings, append the user turn,
call `get_analyst_response`, build the analyst turn (direct subscripts
`response["message"]["content"]` / `response["request_id"]` raise
`KeyError` on absent keys — modelled by `raised := true` with the state as
mutated so far), set the error-notify flag on the error path, copy
`response["warnings"]` when present, append the analyst turn. -/
def process_user_input (s : AppState) (prompt : String) (resp : ApiResp) : StepResult :=
  let s0 := { s with warnings := [] }
  let s1 := { s0 with messages := s0.messages ++ [mkUserMessage prompt] }
  let pr := get_analyst_response resp
  let response := pr.1
  match pr.2 with
  | none =>
    match response.message_content with
    | none => { state := s1, raised := true }
    | some content =>
      match response.request_id with
      | none => { state := s1, raised := true }
      | some rid =>
        let analyst_message : Message :=
          { role := "analyst", content := content, request_id := some rid }
        let s2 :=
          match response.warnings with
          | some ws => { s1 with warnings := ws }
          | none => s1
        { state := { s2 with messages := s2.messages ++ [analyst_message] },
          raised := false }
  | some error_msg =>
    match response.request_id with
    | none => { state := s1, raised := true }
    | some rid =>
      let analyst_message : Message :=
        { role := "analyst",
          content := [{ typ := "text", text := some error_msg }],
          request_id := some rid }
      let s2 := { s1 with fire_API_error_notify := true }
      let s3 :=
        match response.warnings with
        | some ws => { s2 with warnings := ws }
        | none => s2
      { state := { s3 with messages := s3.messages ++ [analyst_message] },
        raised := false }

/-- Observable effects of one `handle_user_inputs` run: resulting state,
whether it raised, whether the "セマンティックビューを選択してください"
toast fired, and whether an analyst API call was made. -/
structure UIResult where
  state : AppState
  raised : Bool
  toast_warning : Bool
  analyst_call : Bool
deriving DecidableEq, Repr

/-- `handle_user_inputs()`: `user_input` is the value of `st.chat_input`
(`none` when nothing was submitted); `resp` the analyst response used if a
call is made.  Typed input with no selected semantic view only fires a
toast and returns; otherwise typed input is processed; with no typed input
a pending `active_suggestion` is consumed and processed (the source
performs no semantic-view check on that path). -/
def handle_user_inputs (s : AppState) (user_input : Option String) (resp : ApiResp) : UIResult :=
  if pyTruthy user_input then
    if ¬ pyTruthy s.selected_semantic_view_fqn then
      { state := s, raised := false, toast_warning := true, analyst_call := false }
    else
      let r := process_user_input s (user_input.getD "") resp
      { state := r.state, raised := r.raised, toast_warning := false, analyst_call := true }
  else
    match s.active_suggestion with
    | some suggestion =>
      let r := process_user_input { s with active_suggestion := none } suggestion resp
      { state := r.state, raised := r.raised, toast_warning := false, analyst_call := true }
    | none =>
      { state := s, raised := false, toast_warning := false, analyst_call := false }

/-- `handle_error_notifications()`: fires the toast when the flag is set
and clears it. -/
def handle_error_notifications (s : AppState) : AppState × Bool :=
  if s.fire_API_error_notify then ({ s with fire_API_error_notify := false }, true)
  else (s, false)

/-- A sequence of completed request/response cycles: each element is a
user prompt together with the analyst response to the resulting call;
processing stops at the first cycle that raises. -/
def run_cycles (s : AppState) : List (String × ApiResp) → StepResult
  | [] => { state := s, raised := false }
  | (prompt, resp) :: rest =>
    let r := process_user_input s prompt resp
    if r.raised then r else run_cycles r.state rest

/-- A turn list that is a chronological sequence of (user, analyst) pairs. -/
def userAnalystPairs : List Message → Bool
  | [] => true
  | u :: a :: rest => u.role = "user" && a.role = "analyst" && userAnalystPairs rest
  | [_] => false

/-- The session state right after the first `reset_session_state()` of a
fresh session (before any selection is made). -/
def initState : AppState :=
  { messages := [], active_suggestion := none, warnings := [],
    form_submitted := [], fire_API_error_notify := false,
    selected_database := none, selected_schema := none,
    selected_semantic_view_fqn := none }

/-- The error text built by `submit_feedback` for a non-200 response
(the f-string interpolating `resp['status']`,
`parsed_content.get('request_id', '(unknown)')`,
`parsed_content.get('error_code', '(unknown)')` and
`parsed_content.get('message', '')`). -/
def feedbackErrorMsg (status : Nat) (pc : ParsedContent) : String :=
  "\n        🚨 Cortex Analyst API エラー 🚨\n        \n        * 応答コード: `"
  ++ toString status ++
  "`\n        * リクエストID: `" ++ pc.request_id.getD "(unknown)" ++
  "`\n        * エラーコード: `" ++ pc.error_code.getD "(unknown)" ++
  "`\n        \n        メッセージ:\n        ```\n        " ++
  pc.message.getD "" ++ "\n        ```\n        "

/-- `submit_feedback(request_id, positive, feedback_message)` with the
feedback API response made explicit: `None` on `status == 200`, the
formatted error text otherwise. -/
def submit_feedback (request_id : String) (positive : Bool)
    (feedback_message : String) (resp : ApiResp) : Option String :=
  if resp.status = 200 then none
  else some (feedbackErrorMsg resp.status resp.parsed)

/-- What `display_feedback_section(request_id)` shows: the submission form
(with its computed `disabled` flag), the success banner, or the stored
error message. -/
inductive FeedbackView
  | form (submit_disabled : Bool)
  | success
  | failure (msg : String)
deriving DecidableEq, Repr

/-- `display_feedback_section(request_id)` (display part): the form is
rendered only when `request_id not in form_submitted`; with a stored record,
`error is None` shows the success banner and anything else shows the stored
error.  Inside the form branch `submit_disabled` evaluates
`request_id in form_submitted and form_submitted[request_id]`, which is
`False` there since the key is absent. -/
def display_feedback_section (s : AppState) (request_id : String) : FeedbackView :=
  match lookupFR s.form_submitted request_id with
  | none => FeedbackView.form false
  | some r =>
    match r.error with
    | none => FeedbackView.success
    | some e => FeedbackView.failure e

/-- The state transition when the feedback form for `request_id` is
submitted: `form_submitted[request_id] = {"error": submit_feedback(...)}`. -/
def feedback_form_submit (s : AppState) (request_id : String) (positive : Bool)
    (feedback_message : String) (resp : ApiResp) : AppState :=
  let err_msg := submit_feedback request_id positive feedback_message resp
  { s with form_submitted := setFR s.form_submitted request_id ⟨err_msg⟩ }

/-- The rejection message of `display_charts_tab` for tables with fewer
than two columns. -/
def chartsNeedTwoColsMsg : String := "グラフには 2 列以上の列が必要です。"

/-- `all_cols_set = set(df.columns)`: the candidate X-axis columns. -/
def chartXOptions (cols : List String) : List String := cols.dedup

/-- `all_cols_set.difference(set([x_col]))`: the candidate Y-axis columns
once `x` is chosen. -/
def chartYOptions (cols : List String) (x : String) : List String :=
  (cols.dedup).filter (fun c => c ≠ x)

/-- `display_charts_tab(df, message_index)`, abstracted over the column
list of `df`: `some msg` means only the explanatory message is written
(no chart widgets); `none` means the axis/type selectors are offered. -/
def display_charts_tab (cols : List String) : Option String :=
  if cols.length ≥ 2 then none else some chartsNeedTwoColsMsg

/-- One rendering action of `display_message`. -/
inductive RenderItem
  | markdown (text : String)
  | suggestionButton (label : String)
  | sqlQuery (statement : String)
deriving DecidableEq, Repr

/-- The rendering of a single content block inside `display_message`:
`none` models a `KeyError` from a direct subscript (`item["text"]`,
`item["suggestions"]`, `item["statement"]`) on a recognized type with the
key absent; an unrecognized `item["type"]` falls through `else: pass` and
renders nothing. -/
def renderBlock (it : ContentBlock) : Option (List RenderItem) :=
  if it.typ = "text" then
    it.text.map (fun t => [RenderItem.markdown t])
  else if it.typ = "suggestions" then
    it.suggestions.map (fun opts => opts.map RenderItem.suggestionButton)
  else if it.typ = "sql" then
    it.statement.map (fun stmt => [RenderItem.sqlQuery stmt])
  else
    some []

/-- `display_message(content, message_index, request_id)`: renders the
blocks in order; `none` models the run raising a `KeyError` on a malformed
recognized block. -/
def display_message : List ContentBlock → Option (List RenderItem)
  | [] => some []
  | it :: rest =>
    match renderBlock it, display_message rest with
    | some r, some rs => some (r ++ rs)
    | _, _ => none

/-- A successful analyst response used as sample input. -/
def okResp : ApiResp :=
  { status := 200,
    parsed := { message_content := some [{ typ := "text", text := some "ok" }],
                request_id := some "req-1" } }

/-- A 400 `invalid_semantic_view` error response whose body carries a
`request_id`. -/
def errResp : ApiResp :=
  { status := 400,
    parsed := { request_id := some "req-2",
                error_code := some "invalid_semantic_view" } }

/-- A 400 `invalid_semantic_view` error response whose JSON body has no
`request_id` key. -/
def errRespNoRid : ApiResp :=
  { status := 400,
    parsed := { error_code := some "invalid_semantic_view" } }

/-- `lookupFR` after `setFR`: the written key reads back the new record,
any other key is unaffected (Python dict assignment semantics). -/
theorem lookupFR_setFR (m : List (String × FeedbackRecord)) (key q : String)
    (v : FeedbackRecord) :
    lookupFR (setFR m key v) q = if q = key then some v else lookupFR m q := by
  induction m with
  | nil =>
    by_cases h : q = key
    · simp [setFR, lookupFR, h]
    · simp [setFR, lookupFR, h, Ne.symm h]
  | cons kv rest ih =>
    obtain ⟨k, w⟩ := kv
    by_cases hk : k = key
    · subst hk
      by_cases hq : q = k <;> simp [setFR, lookupFR, hq, eq_comm]
    · by_cases hkq : k = q
      · subst hkq
        simp [setFR, lookupFR, hk]
      · simp [setFR, lookupFR, hk, hkq, ih]

/-- The shape of a completed (non-raising) `process_user_input` run: it
appends exactly the new user turn followed by one analyst turn. -/
theorem process_user_input_ok_shape (s : AppState) (prompt : String) (resp : ApiResp)
    (h : (process_user_input s prompt resp).raised = false) :
    ∃ a : Message, a.role = "analyst" ∧
      (process_user_input s prompt resp).state.messages =
        s.messages ++ [mkUserMessage prompt, a] := by
  by_cases hst : resp.status < 400
  · cases hc : resp.parsed.message_content with
    | none => simp [process_user_input, get_analyst_response, hst, hc] at h
    | some content =>
      cases hr : resp.parsed.request_id with
      | none => simp [process_user_input, get_analyst_response, hst, hc, hr] at h
      | some rid =>
        refine ⟨{ role := "analyst", content := content, request_id := some rid },
          rfl, ?_⟩
        simp only [process_user_input, get_analyst_response, hst, if_pos, hc, hr]
        cases hw : resp.parsed.warnings <;> simp [hw]
  · cases hr : resp.parsed.request_id with
    | none => simp [process_user_input, get_analyst_response, hst, hr] at h
    | some rid =>
      refine ⟨{ role := "analyst",
                content := [{ typ := "text",
                              text := some (analystErrorMsg resp.status resp.parsed) }],
                request_id := some rid }, rfl, ?_⟩
      simp [process_user_input, get_analyst_response, hst, hr]
      cases hw : resp.parsed.warnings <;> simp [hw]

/-- `process_user_input` never touches the feedback-submission map, in
completed and raising runs alike. -/
theorem process_user_input_form_submitted (s : AppState) (prompt : String)
    (resp : ApiResp) :
    (process_user_input s prompt resp).state.form_submitted = s.form_submitted := by
  by_cases hst : resp.status < 400
  · cases hc : resp.parsed.message_content
    · simp [process_user_input, get_analyst_response, hst, hc]
    · cases hr : resp.parsed.request_id
      · simp [process_user_input, get_analyst_response, hst, hc, hr]
      · simp only [process_user_input, get_analyst_response, hst, if_pos, hc, hr]
        cases hw : resp.parsed.warnings <;> simp [hw]
  · cases hr : resp.parsed.request_id
    · simp [process_user_input, get_analyst_response, hst, hr]
    · simp [process_user_input, get_analyst_response, hst, hr]
      cases hw : resp.parsed.warnings <;> simp [hw]

/-- C7: `reset_session_state` — whether called directly by the
clear-history button or via the database / schema / semantic-view
change callbacks — leaves an empty turn sequence, empty warnings, an
empty feedback map and no active suggestion.  As a pure function on the
state it is atomic: no caller can observe a partially reset state. -/
theorem reset_yields_empty_session (s : AppState) :
    ((reset_session_state s).messages = [] ∧
     (reset_session_state s).warnings = [] ∧
     (reset_session_state s).form_submitted = [] ∧
     (reset_session_state s).active_suggestion = none) ∧
    ((_on_database_change s).messages = [] ∧
     (_on_database_change s).warnings = [] ∧
     (_on_database_change s).form_submitted = [] ∧
     (_on_database_change s).active_suggestion = none) ∧
    ((_on_schema_change s).messages = [] ∧
     (_on_schema_change s).warnings = [] ∧
     (_on_schema_change s).form_submitted = [] ∧
     (_on_schema_change s).active_suggestion = none) ∧
    ((_on_view_change s).messages = [] ∧
     (_on_view_change s).warnings = [] ∧
     (_on_view_change s).form_submitted = [] ∧
     (_on_view_change s).active_suggestion = none) := by
  simp [reset_session_state, _on_database_change, _on_schema_change, _on_view_change]

/-- C9: a result table with at most one column gets only the explanatory
message (no chart widgets, no exception — the function is total); with at
least two columns the selectors are offered, every column is a candidate
X axis, and every column distinct from the chosen X axis is a candidate
Y axis. -/
theorem charts_tab_column_rules (cols : List String) :
    (cols.length ≤ 1 → display_charts_tab cols = some chartsNeedTwoColsMsg) ∧
    (2 ≤ cols.length →
      display_charts_tab cols = none ∧
      ∀ x ∈ cols, x ∈ chartXOptions cols ∧
        ∀ y ∈ cols, y ≠ x → y ∈ chartYOptions cols x) := by
  constructor
  · intro h
    have h2 : ¬ 2 ≤ cols.length := by omega
    simp [display_charts_tab, h2]
  · intro h
    refine ⟨by simp [display_charts_tab, h], ?_⟩
    intro x hx
    refine ⟨by simpa [chartXOptions] using List.mem_dedup.mpr hx, ?_⟩
    intro y hy hne
    simp [chartYOptions, List.mem_filter, List.mem_dedup, hy, hne]

/-- Witness for `charts_tab_column_rules` at concrete tables. -/
theorem charts_tab_column_rules_witness :
    display_charts_tab ["A"] = some chartsNeedTwoColsMsg ∧
    (display_charts_tab ["A", "B"] = none ∧
      "A" ∈ chartXOptions ["A", "B"] ∧ "B" ∈ chartYOptions ["A", "B"] "A") := by
  have h1 := (charts_tab_column_rules ["A"]).1 (by decide)
  have h2 := (charts_tab_column_rules ["A", "B"]).2 (by decide)
  refine ⟨h1, h2.1, (h2.2 "A" (by decide)).1, ?_⟩
  exact (h2.2 "A" (by decide)).2 "B" (by decide) (by decide)

/-- C10: a content block with an unrecognized `type` renders nothing and
raises nothing (`else: pass`), and removing it from a message leaves the
rendering of all the other blocks unchanged. -/
theorem unknown_block_is_skipped (it : ContentBlock) (pre post : List ContentBlock)
    (h1 : it.typ ≠ "text") (h2 : it.typ ≠ "suggestions") (h3 : it.typ ≠ "sql") :
    renderBlock it = some [] ∧
    display_message (pre ++ it :: post) = display_message (pre ++ post) := by
  have hrb : renderBlock it = some [] := by simp [renderBlock, h1, h2, h3]
  refine ⟨hrb, ?_⟩
  induction pre with
  | nil =>
    simp only [List.nil_append, display_message, hrb]
    cases hp : display_message post <;> simp
  | cons p ps ih =>
    simp only [List.cons_append, display_message, List.append_eq, ih]

/-- Witness for `unknown_block_is_skipped`: a `"chart"`-typed block between
a text block and a sql block is skipped while both neighbours render. -/
theorem unknown_block_is_skipped_witness :
    renderBlock { typ := "chart" } = some [] ∧
    display_message
        [{ typ := "text", text := some "hello" }, { typ := "chart" },
         { typ := "sql", statement := some "SELECT 1" }] =
      display_message
        [{ typ := "text", text := some "hello" },
         { typ := "sql", statement := some "SELECT 1" }] := by
  have h := unknown_block_is_skipped { typ := "chart" }
    [{ typ := "text", text := some "hello" }]
    [{ typ := "sql", statement := some "SELECT 1" }]
    (by decide) (by decide) (by decide)
  exact h

/-- C1: every completed request/response cycle appends exactly one user
turn followed by one analyst turn: after N completed cycles the turn
sequence is the prior sequence plus an alternating (user, analyst) tail of
length 2N — in particular, starting from a reset (empty) conversation the
sequence has length exactly 2N and alternates — and, the prior turns being
a prefix of the new sequence, no existing turn is ever reordered, mutated
or removed by processing (only `reset_session_state` clears them). -/
theorem conversation_turns_two_per_cycle (s : AppState)
    (cycles : List (String × ApiResp))
    (h : (run_cycles s cycles).raised = false) :
    ∃ tail : List Message,
      (run_cycles s cycles).state.messages = s.messages ++ tail ∧
      tail.length = 2 * cycles.length ∧
      userAnalystPairs tail = true := by
  induction cycles generalizing s with
  | nil => exact ⟨[], by simp [run_cycles], rfl, rfl⟩
  | cons c rest ih =>
    obtain ⟨prompt, resp⟩ := c
    simp only [run_cycles] at h ⊢
    cases hr : (process_user_input s prompt resp).raised with
    | true => simp [hr] at h
    | false =>
      simp only [hr, Bool.false_eq_true, if_false] at h ⊢
      obtain ⟨a, ha, hmsg⟩ := process_user_input_ok_shape s prompt resp hr
      obtain ⟨tail, ht1, ht2, ht3⟩ := ih _ h
      refine ⟨mkUserMessage prompt :: a :: tail, ?_, ?_, ?_⟩
      · rw [ht1, hmsg]
        simp
      · simp only [List.length_cons, List.length_cons, ht2]
        omega
      · simp [userAnalystPairs, mkUserMessage, ha, ht3]

/-- Witness for `conversation_turns_two_per_cycle`: one completed cycle on
a fresh session. -/
theorem conversation_turns_two_per_cycle_witness :
    (run_cycles initState [("売上を教えて", okResp)]).raised = false ∧
    ∃ tail : List Message,
      (run_cycles initState [("売上を教えて", okResp)]).state.messages =
        initState.messages ++ tail ∧
      tail.length = 2 * [("売上を教えて", okResp)].length ∧
      userAnalystPairs tail = true :=
  ⟨by decide,
   conversation_turns_two_per_cycle initState [("売上を教えて", okResp)] (by decide)⟩

/-- C2: for a response with `status < 400` carrying a message content
payload and a request_id, the completed run appends the analyst turn with
exactly that content and that request_id, and leaves the API-error
notification flag untouched (so it stays unset). -/
theorem analyst_success_turn (s : AppState) (prompt : String) (resp : ApiResp)
    (content : List ContentBlock) (rid : String)
    (hst : resp.status < 400)
    (hc : resp.parsed.message_content = some content)
    (hr : resp.parsed.request_id = some rid) :
    (process_user_input s prompt resp).raised = false ∧
    (process_user_input s prompt resp).state.messages =
      s.messages ++ [mkUserMessage prompt,
        { role := "analyst", content := content, request_id := some rid }] ∧
    (process_user_input s prompt resp).state.fire_API_error_notify =
      s.fire_API_error_notify := by
  simp [process_user_input, get_analyst_response, hst, hc, hr]
  cases hw : resp.parsed.warnings <;> simp [hw]

/-- Witness for `analyst_success_turn` on a concrete 200 response. -/
theorem analyst_success_turn_witness :
    okResp.status < 400 ∧
    ((process_user_input initState "売上を見せて" okResp).raised = false ∧
     (process_user_input initState "売上を見せて" okResp).state.messages =
       initState.messages ++ [mkUserMessage "売上を見せて",
         { role := "analyst", content := [{ typ := "text", text := some "ok" }],
           request_id := some "req-1" }] ∧
     (process_user_input initState "売上を見せて" okResp).state.fire_API_error_notify =
       initState.fire_API_error_notify) :=
  ⟨by decide,
   analyst_success_turn initState "売上を見せて" okResp
     [{ typ := "text", text := some "ok" }] "req-1" (by decide) rfl rfl⟩

/-- C3 counterexample: `errRespNoRid` has `status = 400` and
`error_code = "invalid_semantic_view"`, yet processing it raises a
`KeyError` at `response["request_id"]`: no analyst turn is appended and the
API-error notification flag is NOT set, so the claim fails for status-400
responses whose body lacks a `request_id`. -/
theorem analyst_error_flag_cex :
    400 ≤ errRespNoRid.status ∧
    errRespNoRid.parsed.error_code = some "invalid_semantic_view" ∧
    (process_user_input initState "q" errRespNoRid).raised = true ∧
    (process_user_input initState "q" errRespNoRid).state.fire_API_error_notify
      = false ∧
    (process_user_input initState "q" errRespNoRid).state.messages =
      [mkUserMessage "q"] := by decide

/-- C3 (amended): for every analyst response with `status >= 400` whose
body carries a `request_id`, the appended analyst turn is a single text
block whose text mentions the response status and the body's error code
(`"(unknown)"` when absent), and the API-error notification flag is set. -/
theorem analyst_error_turn (s : AppState) (prompt : String) (resp : ApiResp)
    (rid : String)
    (hst : 400 ≤ resp.status)
    (hr : resp.parsed.request_id = some rid) :
    (process_user_input s prompt resp).raised = false ∧
    (process_user_input s prompt resp).state.messages =
      s.messages ++ [mkUserMessage prompt,
        { role := "analyst",
          content := [{ typ := "text",
                        text := some (analystErrorMsg resp.status resp.parsed) }],
          request_id := some rid }] ∧
    (process_user_input s prompt resp).state.fire_API_error_notify = true ∧
    (∃ a b : String,
      analystErrorMsg resp.status resp.parsed = a ++ toString resp.status ++ b) ∧
    (∀ ec : String, resp.parsed.error_code = some ec →
      ∃ a b : String,
        analystErrorMsg resp.status resp.parsed = a ++ ec ++ b) := by
  have hst2 : ¬ resp.status < 400 := by omega
  have htriple : (process_user_input s prompt resp).raised = false ∧
      (process_user_input s prompt resp).state.messages =
        s.messages ++ [mkUserMessage prompt,
          { role := "analyst",
            content := [{ typ := "text",
                          text := some (analystErrorMsg resp.status resp.parsed) }],
            request_id := some rid }] ∧
      (process_user_input s prompt resp).state.fire_API_error_notify = true := by
    simp [process_user_input, get_analyst_response, hst2, hr]
    cases hw : resp.parsed.warnings <;> simp [hw]
  refine ⟨htriple.1, htriple.2.1, htriple.2.2, ?_, ?_⟩
  · refine ⟨"\n🚨 Cortex Analyst API エラー 🚨\n\n* 応答コード: `",
      "`\n* リクエストID: `" ++ resp.parsed.request_id.getD "(unknown)" ++
      "`\n* エラーコード: `" ++ resp.parsed.error_code.getD "(unknown)" ++
      "`\n\nメッセージ:\n        ", ?_⟩
    simp [analystErrorMsg, String.append_assoc]
  · intro ec hec
    refine ⟨"\n🚨 Cortex Analyst API エラー 🚨\n\n* 応答コード: `" ++
      toString resp.status ++ "`\n* リクエストID: `" ++
      resp.parsed.request_id.getD "(unknown)" ++ "`\n* エラーコード: `",
      "`\n\nメッセージ:\n        ", ?_⟩
    simp [analystErrorMsg, hec, String.append_assoc]

/-- Witness for `analyst_error_turn` on the concrete
`invalid_semantic_view` 400 response carrying a request_id. -/
theorem analyst_error_turn_witness :
    400 ≤ errResp.status ∧
    (process_user_input initState "q2" errResp).raised = false ∧
    (process_user_input initState "q2" errResp).state.fire_API_error_notify
      = true := by
  have h := analyst_error_turn initState "q2" errResp "req-2" (by decide) rfl
  exact ⟨by decide, h.1, h.2.2.1⟩

/-- C4: evaluating the failure path on a status-400 JSON body with no
`request_id` key: the handler raises (`KeyError` at
`response["request_id"]`) instead of completing — the session state keeps
all prior turns plus the new user turn, but no degraded analyst turn is
appended and the exception escapes, contradicting the never-fatal policy
(the error renderer itself tolerates a missing request_id via
`.get('request_id', '(unknown)')`). -/
theorem error_body_without_request_id_raises :
    400 ≤ errRespNoRid.status ∧
    errRespNoRid.parsed.request_id = none ∧
    (process_user_input initState "明日の天気は" errRespNoRid).raised = true ∧
    (process_user_input initState "明日の天気は" errRespNoRid).state.messages =
      initState.messages ++ [mkUserMessage "明日の天気は"] := by decide

/-- C5 counterexample: with a stored FeedbackRecord whose submission ended
in an error, `display_feedback_section` renders only the stored error text
— the submission form is never rendered again for that request_id, so no
further submission attempt is possible, contrary to the claim that
resubmission is permitted after an error. -/
theorem feedback_retry_after_error_cex :
    display_feedback_section
        { initState with form_submitted := [("req-9", ⟨some "boom"⟩)] } "req-9" =
      FeedbackView.failure "boom" ∧
    ∀ d : Bool,
      display_feedback_section
          { initState with form_submitted := [("req-9", ⟨some "boom"⟩)] } "req-9" ≠
        FeedbackView.form d := by decide

/-- C5 (amended): feedback submission for a request_id is accepted at most
once per session, regardless of outcome: the form is rendered exactly when
no FeedbackRecord exists; once any record is stored — submitted with or
without error — the form is gone for good; a submission stores the outcome
of `submit_feedback`, which is error-free exactly on a 200 response. -/
theorem feedback_at_most_once (s : AppState) (rid : String) :
    (lookupFR s.form_submitted rid = none →
      display_feedback_section s rid = FeedbackView.form false) ∧
    (∀ r : FeedbackRecord, lookupFR s.form_submitted rid = some r →
      ∀ d : Bool, display_feedback_section s rid ≠ FeedbackView.form d) ∧
    (∀ (positive : Bool) (msg : String) (resp : ApiResp),
      lookupFR (feedback_form_submit s rid positive msg resp).form_submitted rid =
        some ⟨submit_feedback rid positive msg resp⟩) ∧
    (∀ (positive : Bool) (msg : String) (resp : ApiResp), resp.status = 200 →
      submit_feedback rid positive msg resp = none) := by
  refine ⟨?_, ?_, ?_, ?_⟩
  · intro h
    simp [display_feedback_section, h]
  · intro r h d
    cases hre : r.error <;> simp [display_feedback_section, h, hre]
  · intro positive msg resp
    simp [feedback_form_submit, lookupFR_setFR]
  · intro positive msg resp h
    simp [submit_feedback, h]

/-- Witness for `feedback_at_most_once`: a submitted-without-error record
blocks the form; a fresh submission against a 200 response stores an
error-free record. -/
theorem feedback_at_most_once_witness :
    (∀ d : Bool,
      display_feedback_section
          { initState with form_submitted := [("req-1", ⟨none⟩)] } "req-1" ≠
        FeedbackView.form d) ∧
    lookupFR (feedback_form_submit initState "req-1" true "good" okResp).form_submitted
      "req-1" = some ⟨none⟩ := by
  have h1 := feedback_at_most_once
    { initState with form_submitted := [("req-1", ⟨none⟩)] } "req-1"
  have h2 := feedback_at_most_once initState "req-1"
  refine ⟨h1.2.1 ⟨none⟩ (by decide), ?_⟩
  have h3 := h2.2.2.1 true "good" okResp
  simpa [submit_feedback, okResp] using h3

/-- C6 counterexample: a FeedbackRecord does NOT persist for the session
lifetime: `reset_session_state` — run on conversation reset, explicit
history clear, and every selection-change callback such as
`_on_view_change` — empties the whole feedback map. -/
theorem feedback_record_removed_on_reset_cex :
    lookupFR ({ initState with
        form_submitted := [("req-7", ⟨none⟩)] }).form_submitted "req-7" =
      some ⟨none⟩ ∧
    (reset_session_state
        { initState with form_submitted := [("req-7", ⟨none⟩)] }).form_submitted
      = [] ∧
    lookupFR ((_on_view_change
        { initState with form_submitted := [("req-7", ⟨none⟩)] }).form_submitted)
      "req-7" = none := by decide

/-- C6 (amended): FeedbackRecord entries persist across conversation
processing (`process_user_input`, `handle_user_inputs` never touch the
map) and across feedback submissions for other request_ids (dict
assignment only overwrites its own key) — but `reset_session_state`
(conversation reset, explicit clear, selection change) empties the map. -/
theorem feedback_records_persist_until_reset (s : AppState) :
    (∀ (prompt : String) (resp : ApiResp),
      (process_user_input s prompt resp).state.form_submitted = s.form_submitted) ∧
    (∀ (ui : Option String) (resp : ApiResp),
      (handle_user_inputs s ui resp).state.form_submitted = s.form_submitted) ∧
    (∀ (rid : String) (positive : Bool) (msg : String) (resp : ApiResp) (q : String),
      lookupFR (feedback_form_submit s rid positive msg resp).form_submitted q =
        if q = rid then some ⟨submit_feedback rid positive msg resp⟩
        else lookupFR s.form_submitted q) ∧
    (reset_session_state s).form_submitted = [] := by
  refine ⟨fun prompt resp => process_user_input_form_submitted s prompt resp,
    ?_, ?_, rfl⟩
  · intro ui resp
    by_cases hu : pyTruthy ui = true
    · by_cases hf : pyTruthy s.selected_semantic_view_fqn = true
      · simp [handle_user_inputs, hu, hf, process_user_input_form_submitted]
      · simp [handle_user_inputs, hu, hf]
    · cases hs : s.active_suggestion with
      | some sug =>
        have h := process_user_input_form_submitted
          { s with active_suggestion := none } sug resp
        simp only [handle_user_inputs, hu, Bool.false_eq_true, if_false, hs]
        simpa using h
      | none => simp [handle_user_inputs, hu, hs]
  · intro rid positive msg resp q
    simp [feedback_form_submit, lookupFR_setFR]

/-- C8 counterexample: with no semantic view selected but a pending
selected suggestion, `handle_user_inputs` consumes the suggestion and
performs the analyst call anyway, changing the conversation — the
semantic-view guard covers only typed chat input. -/
theorem suggestion_bypasses_view_check_cex :
    pyTruthy initState.selected_semantic_view_fqn = false ∧
    (handle_user_inputs
        { initState with active_suggestion := some "おすすめの分析" }
        none okResp).analyst_call = true ∧
    (handle_user_inputs
        { initState with active_suggestion := some "おすすめの分析" }
        none okResp).state.messages ≠ initState.messages := by decide

/-- C8 (amended): when the selected semantic view is empty or absent,
typed chat input is blocked — the warning toast fires, no analyst call is
made, and the whole session state (conversation included) is unchanged —
but a previously selected suggestion is still processed with an analyst
call (the source has no semantic-view check on that path). -/
theorem empty_view_blocks_typed_input (s : AppState) (input : String)
    (resp : ApiResp)
    (hf : pyTruthy s.selected_semantic_view_fqn = false)
    (hi : input ≠ "") :
    handle_user_inputs s (some input) resp =
      { state := s, raised := false, toast_warning := true,
        analyst_call := false } ∧
    ∀ sug : String, s.active_suggestion = some sug →
      (handle_user_inputs s none resp).analyst_call = true := by
  constructor
  · have hu : pyTruthy (some input) = true := by simp [pyTruthy, hi]
    simp [handle_user_inputs, hu, hf]
  · intro sug hs
    simp [handle_user_inputs, pyTruthy, hs]

/-- Witness for `empty_view_blocks_typed_input`: typed input on a fresh
session with no selected view fires the toast and makes no call. -/
theorem empty_view_blocks_typed_input_witness :
    pyTruthy initState.selected_semantic_view_fqn = false ∧
    handle_user_inputs initState (some "こんにちは") okResp =
      { state := initState, raised := false, toast_warning := true,
        analyst_call := false } := by
  refine ⟨by decide, ?_⟩
  exact (empty_view_blocks_typed_input initState "こんにちは" okResp
    (by decide) (by decide)).1

end CortexApp
